import Mathlib

/-!
Verification of the solar-panel optimization engine
(`backend/solar/solar_calculator.py`, class `SolarCalculator`).

Modelling conventions:
* Python floats are modelled as exact rationals (`ℚ`) in the validation /
  angle / fallback / output layer, which is pure arithmetic, and as reals
  (`ℝ`) in the irradiance layer, which uses trigonometric functions.
* The external ephemeris library (pvlib: `location.get_solarposition`,
  `location.get_clearsky`) is not part of this repository; its per-day
  outputs (clear-sky GHI and solar zenith) are modelled as abstract input
  streams `ℕ → ℝ` indexed by the position in the sampled date range, and
  the possibility that any of its calls raises is modelled by an
  `Except String` outcome supplied to the orchestration layer.
* Python's `round(x, 2)` is modelled as rounding to two decimal places
  (`round2`); no claim below depends on the tie-breaking rule.
* The mutable object state of `SolarCalculator` (`self.system_efficiency`,
  `self.panel_area`) is modelled by explicit state passing, so statements
  about state sharing across calls are expressible.
-/

/-- The instance attributes set in `SolarCalculator.__init__`. -/
structure SolarCalculator where
  system_efficiency : ℚ
  panel_area : ℚ
deriving DecidableEq

/-- `SolarCalculator.__init__`: `system_efficiency = 0.75`, `panel_area = 1.0`. -/
def SolarCalculator.init : SolarCalculator :=
  { system_efficiency := 0.75, panel_area := 1.0 }

/-- The result dictionary returned by `calculate_optimal_angles`. -/
structure AngleResult where
  optimal_pitch : ℚ
  optimal_azimuth : ℚ
  annual_solar_radiation : ℚ
  efficiency_factor : ℚ
  estimated_annual_output : ℚ
  calculation_date : String
deriving DecidableEq

/-- Python's `round(x, 2)` modelled as rounding to two decimal places.
(The claims verified below do not depend on the tie-breaking rule, so the
difference between round-half-even on binary floats and `round` on `ℚ` is
immaterial here.) -/
def round2 (x : ℚ) : ℚ :=
  (round (x * 100) : ℚ) / 100

/-- `SolarCalculator._calculate_optimal_tilt(latitude, offset_angle)`:
base tilt `abs(latitude)`; seasonal adjustment `+5` / `-5` when
`abs(latitude) > 25` depending on the sign of `latitude`; optional offset
added; result constrained by `max(0, min(90, optimal_tilt))`. -/
def calculate_optimal_tilt (latitude : ℚ) (offset_angle : Option ℚ) : ℚ :=
  let base_tilt := |latitude|
  let seasonal_adjustment : ℚ :=
    if 25 < |latitude| then (if 0 < latitude then 5 else -5) else 0
  let with_seasonal := base_tilt + seasonal_adjustment
  let with_offset :=
    match offset_angle with
    | some o => with_seasonal + o
    | none => with_seasonal
  max 0 (min 90 with_offset)

/-- `SolarCalculator._calculate_optimal_azimuth(latitude)`:
`180.0` when `latitude >= 0`, else `0.0`. -/
def calculate_optimal_azimuth (latitude : ℚ) : ℚ :=
  if 0 ≤ latitude then 180.0 else 0.0

/-- `SolarCalculator._fallback_radiation_calculation(latitude, tilt)`:
latitude-banded base radiation adjusted by the tilt-quality factor
`1.0 + 0.1 * (1 - abs(tilt - abs_lat) / 90)`. -/
def fallback_radiation_calculation (latitude tilt : ℚ) : ℚ :=
  let abs_lat := |latitude|
  let base_radiation : ℚ :=
    if abs_lat < 23.5 then 5.5
    else if abs_lat < 45 then 4.5
    else if abs_lat < 60 then 3.5
    else 2.5
  let tilt_factor := 1.0 + 0.1 * (1 - |tilt - abs_lat| / 90)
  base_radiation * tilt_factor

/-- `SolarCalculator._calculate_annual_output(annual_radiation)`:
`annual_radiation * 365 * panel_area * system_efficiency`. -/
def calculate_annual_output (c : SolarCalculator) (annual_radiation : ℚ) : ℚ :=
  let annual_radiation_total := annual_radiation * 365
  annual_radiation_total * c.panel_area * c.system_efficiency

/-- `SolarCalculator._calculate_annual_radiation(latitude, longitude, tilt)`
at the orchestration level.  The body of the `try` block is the pvlib-based
primary path; its outcome (a numeric result, or the exception it raised) is
supplied as `primary`.  The `except` branch logs a warning and returns
`_fallback_radiation_calculation(latitude, tilt)`.  The numeric value
produced by a successful primary path is modelled exactly (over `ℝ`) by
`primary_annual_radiation` below. -/
def calculate_annual_radiation (primary : Except String ℚ)
    (latitude tilt : ℚ) : ℚ :=
  match primary with
  | Except.ok r => r
  | Except.error _ => fallback_radiation_calculation latitude tilt

/-- Length in days of the month `month` of the year `year` under the
Gregorian calendar rule used by `datetime` / `pandas`. -/
def days_in_month (year month : ℕ) : ℕ :=
  if month = 2 then
    (if year % 4 = 0 ∧ (year % 100 ≠ 0 ∨ year % 400 = 0) then 29 else 28)
  else if month = 4 ∨ month = 6 ∨ month = 9 ∨ month = 11 then 30
  else 31

/-- Number of calendar days in `year`; this is the length of
`pd.date_range(datetime(year, 1, 1), datetime(year, 12, 31), freq=D)`,
whose endpoints are both inclusive. -/
def days_in_year (year : ℕ) : ℕ :=
  ∑ m ∈ Finset.Icc 1 12, days_in_month year m

/-- `SolarCalculator._calculate_tilted_radiation(ghi, zenith, tilt)` at one
sample point: angles converted to radians with `np.radians`,
`cos_incidence = cos(zenith_rad)*cos(tilt_rad) + sin(zenith_rad)*sin(tilt_rad)`,
clipped by `np.clip(cos_incidence, 0, 1)`, and multiplied into `ghi`. -/
noncomputable def calculate_tilted_radiation (ghi zenith tilt : ℝ) : ℝ :=
  let tilt_rad := tilt * (Real.pi / 180)
  let zenith_rad := zenith * (Real.pi / 180)
  let cos_incidence :=
    Real.cos zenith_rad * Real.cos tilt_rad +
      Real.sin zenith_rad * Real.sin tilt_rad
  let cos_incidence_clipped := min 1 (max 0 cos_incidence)
  ghi * cos_incidence_clipped

/-- The numeric value computed by the `try` block of
`SolarCalculator._calculate_annual_radiation` when no exception occurs:
the dates are `pd.date_range(datetime(2024, 1, 1), datetime(2024, 12, 31),
freq=D)` — `days_in_year 2024` daily sample points — and the result is
`np.mean(radiation_on_tilt) * 365 / 1000`.  `ghi i` and `zenith i` are the
clear-sky GHI and solar zenith that pvlib returns for the `i`-th date. -/
noncomputable def primary_annual_radiation (ghi zenith : ℕ → ℝ) (tilt : ℝ) : ℝ :=
  (∑ i ∈ Finset.range (days_in_year 2024),
      calculate_tilted_radiation (ghi i) (zenith i) tilt) /
    (days_in_year 2024) * 365 / 1000

/-- Modelled from the spec (the reference definition quoted by the claim,
not from the source): sample every calendar day of a representative
non-leap year — 365 daily points — take the tilted irradiance at each, and
return the mean of the 365 values multiplied by 365 and divided by 1000. -/
noncomputable def spec_annual_radiation (ghi zenith : ℕ → ℝ) (tilt : ℝ) : ℝ :=
  (∑ i ∈ Finset.range 365,
      calculate_tilted_radiation (ghi i) (zenith i) tilt) / 365 * 365 / 1000

/-- The amended reference definition: identical to `spec_annual_radiation`
except that the sampled year is the leap year 2024, so there are 366 daily
points and the mean is over 366 values (still scaled by 365 / 1000). -/
noncomputable def amended_annual_radiation (ghi zenith : ℕ → ℝ) (tilt : ℝ) : ℝ :=
  (∑ i ∈ Finset.range 366,
      calculate_tilted_radiation (ghi i) (zenith i) tilt) / 366 * 365 / 1000

/-- Validity of the optional offset angle, as checked in
`calculate_optimal_angles`: absent, or within `[-90, 90]`. -/
def offset_in_range : Option ℚ → Bool
  | none => true
  | some o => decide (-90 ≤ o ∧ o ≤ 90)

/-- `SolarCalculator.calculate_optimal_angles(latitude, longitude,
offset_angle)`.  Validation happens first, in source order (latitude, then
longitude, then offset), each failure raising `ValueError` with the message
from the source; then tilt, azimuth, radiation and output are computed and
the rounded result dictionary is returned.  `ephemeris` is the abstract
outcome of the pvlib primary radiation path as a function of
`(latitude, longitude, tilt)`; `today` is the value of
`date.today().isoformat()`.  The calculator state is threaded explicitly
(the method never writes to `self`). -/
def calculate_optimal_angles (c : SolarCalculator)
    (ephemeris : ℚ → ℚ → ℚ → Except String ℚ) (today : String)
    (latitude longitude : ℚ) (offset_angle : Option ℚ) :
    Except String AngleResult × SolarCalculator :=
  if ¬(-90 ≤ latitude ∧ latitude ≤ 90) then
    (Except.error "Latitude must be between -90 and 90 degrees", c)
  else if ¬(-180 ≤ longitude ∧ longitude ≤ 180) then
    (Except.error "Longitude must be between -180 and 180 degrees", c)
  else if ¬ offset_in_range offset_angle then
    (Except.error "Offset angle must be between -90 and 90 degrees", c)
  else
    let optimal_tilt := calculate_optimal_tilt latitude offset_angle
    let optimal_azimuth := calculate_optimal_azimuth latitude
    let annual_radiation :=
      calculate_annual_radiation (ephemeris latitude longitude optimal_tilt)
        latitude optimal_tilt
    let estimated_output := calculate_annual_output c annual_radiation
    (Except.ok
      { optimal_pitch := round2 optimal_tilt
        optimal_azimuth := round2 optimal_azimuth
        annual_solar_radiation := round2 annual_radiation
        efficiency_factor := c.system_efficiency
        estimated_annual_output := round2 estimated_output
        calculation_date := today }, c)

/-- Helper: the code's nested seasonal-adjustment conditional equals the
spec's three-case description of it. -/
theorem seasonal_adjustment_cases (lat : ℚ) :
    (if 25 < |lat| then (if 0 < lat then (5 : ℚ) else -5) else 0)
      = (if 25 < |lat| ∧ 0 < lat then 5
         else if 25 < |lat| ∧ lat < 0 then -5 else 0) := by
  by_cases h1 : 25 < |lat|
  · by_cases h2 : 0 < lat
    · simp [h1, h2]
    · have h3 : lat < 0 := by
        rcases lt_trichotomy lat 0 with h | h | h
        · exact h
        · exfalso
          rw [h] at h1
          norm_num at h1
        · exact absurd h h2
      simp [h1, h2, h3]
  · simp [h1]

/-- Claim C2: for every latitude and every optional offset angle, the tilt
estimator returns `max(0, min(90, |latitude| + s + o))` where `s = 5` if
`|latitude| > 25` and `latitude > 0`, `s = -5` if `|latitude| > 25` and
`latitude < 0`, `s = 0` if `|latitude| ≤ 25`, and `o` is the offset angle
when supplied and `0` otherwise; the result always lies in `[0, 90]`. -/
theorem optimal_tilt_matches_spec (lat : ℚ) (off : Option ℚ) :
    calculate_optimal_tilt lat off
      = max 0 (min 90 (|lat| +
          (if 25 < |lat| ∧ 0 < lat then 5
           else if 25 < |lat| ∧ lat < 0 then -5 else 0) + off.getD 0))
    ∧ 0 ≤ calculate_optimal_tilt lat off
    ∧ calculate_optimal_tilt lat off ≤ 90 := by
  have hbounds : ∀ t : ℚ, 0 ≤ max 0 (min 90 t) ∧ max 0 (min 90 t) ≤ 90 := by
    intro t
    constructor
    · exact le_max_left 0 (min 90 t)
    · exact max_le (by norm_num) (min_le_left 90 t)
  refine ⟨?_, ?_, ?_⟩
  · rw [← seasonal_adjustment_cases lat]
    cases off with
    | none => simp [calculate_optimal_tilt]
    | some o => simp [calculate_optimal_tilt]
  · exact (hbounds _).1
  · exact (hbounds _).2

/-- Claim C6: the azimuth estimator (a function of latitude alone — it takes no
longitude argument) returns exactly `180.0` when `latitude ≥ 0` and exactly
`0.0` when `latitude < 0`, with the threshold exactly at `0`; moreover the
two produced values survive the 2-decimal rounding of the result record
unchanged. -/
theorem optimal_azimuth_matches_spec (lat : ℚ) :
    calculate_optimal_azimuth lat = (if 0 ≤ lat then 180 else 0)
    ∧ round2 (calculate_optimal_azimuth lat) = calculate_optimal_azimuth lat := by
  constructor
  · rw [calculate_optimal_azimuth]
    norm_num
  · by_cases h : 0 ≤ lat
    · rw [calculate_optimal_azimuth]
      simp only [h, if_true]
      rw [round2, show ((180.0 : ℚ) * 100) = ((18000 : ℤ) : ℚ) by norm_num,
        round_intCast]
      norm_num
    · rw [calculate_optimal_azimuth]
      simp only [h, if_false]
      rw [round2, show ((0.0 : ℚ) * 100) = ((0 : ℤ) : ℚ) by norm_num,
        round_intCast]
      norm_num

/-- Claim C9: the yield estimator returns exactly
`radiation * 365 * panel_area * system_efficiency` with `panel_area = 1.0`
and `system_efficiency = 0.75` (the constants set in `__init__`); it is a
total function, so it cannot fail. -/
theorem annual_output_matches_spec (r : ℚ) :
    calculate_annual_output SolarCalculator.init r = r * 365 * 1.0 * 0.75 := by
  rfl

/-- Claim C5: the fallback radiation estimate equals
`base(|latitude|) * (1.0 + 0.1 * (1 - |tilt - |latitude|| / 90))` with the
base bands `5.5` for `|lat| < 23.5`, `4.5` for `23.5 ≤ |lat| < 45`, `3.5`
for `45 ≤ |lat| < 60` and `2.5` for `|lat| ≥ 60`; it is a total (hence
deterministic) arithmetic function, and for valid latitude and a tilt in
`[0, 90]` the tilt-quality factor lies within `[0.9, 1.1]`. -/
theorem fallback_radiation_matches_spec (lat tilt : ℚ) :
    fallback_radiation_calculation lat tilt
      = (if |lat| < 23.5 then 5.5
         else if 23.5 ≤ |lat| ∧ |lat| < 45 then 4.5
         else if 45 ≤ |lat| ∧ |lat| < 60 then 3.5 else 2.5)
        * (1.0 + 0.1 * (1 - |tilt - abs lat| / 90))
    ∧ (0 ≤ tilt → tilt ≤ 90 → -90 ≤ lat → lat ≤ 90 →
        0.9 ≤ 1.0 + 0.1 * (1 - |tilt - abs lat| / 90) ∧
        1.0 + 0.1 * (1 - |tilt - abs lat| / 90) ≤ 1.1) := by
  constructor
  · rw [fallback_radiation_calculation]
    by_cases h1 : |lat| < 23.5
    · simp [h1]
    · by_cases h2 : |lat| < 45
      · have h2' : 23.5 ≤ |lat| ∧ |lat| < 45 := ⟨le_of_not_lt h1, h2⟩
        simp [h1, h2, h2']
      · by_cases h3 : |lat| < 60
        · have h3' : 45 ≤ |lat| ∧ |lat| < 60 := ⟨le_of_not_lt h2, h3⟩
          have h2'' : ¬(23.5 ≤ |lat| ∧ |lat| < 45) := fun h => h2 h.2
          simp [h1, h2, h3, h2'', h3']
        · have h2'' : ¬(23.5 ≤ |lat| ∧ |lat| < 45) := fun h => h2 h.2
          have h3'' : ¬(45 ≤ |lat| ∧ |lat| < 60) := fun h => h3 h.2
          simp [h1, h2, h3, h2'', h3'']
  · intro ht0 ht90 hl1 hl2
    have hlat : |lat| ≤ 90 := abs_le.mpr ⟨hl1, hl2⟩
    have hlat0 : 0 ≤ |lat| := abs_nonneg lat
    have hd : |tilt - abs lat| ≤ 90 := by
      rw [abs_le]
      constructor <;> linarith
    have hd0 : 0 ≤ |tilt - abs lat| := abs_nonneg _
    have hdiv1 : |tilt - abs lat| / 90 ≤ 1 := by
      rw [div_le_one (by norm_num : (0:ℚ) < 90)]
      exact hd
    have hdiv0 : 0 ≤ |tilt - abs lat| / 90 := by positivity
    constructor <;> linarith

/-- Witness for claim C5: the fallback formula and factor bounds at latitude 30,
tilt 35. -/
theorem fallback_radiation_matches_spec_witness :
    (fallback_radiation_calculation 30 35
      = (if |(30 : ℚ)| < 23.5 then 5.5
         else if 23.5 ≤ |(30 : ℚ)| ∧ |(30 : ℚ)| < 45 then 4.5
         else if 45 ≤ |(30 : ℚ)| ∧ |(30 : ℚ)| < 60 then 3.5 else 2.5)
        * (1.0 + 0.1 * (1 - |(35 : ℚ) - abs (30 : ℚ)| / 90)))
    ∧ 0.9 ≤ 1.0 + 0.1 * (1 - |(35 : ℚ) - abs (30 : ℚ)| / 90)
    ∧ 1.0 + 0.1 * (1 - |(35 : ℚ) - abs (30 : ℚ)| / 90) ≤ 1.1 := by
  have h := fallback_radiation_matches_spec 30 35
  have h2 := h.2 (by norm_num) (by norm_num) (by norm_num) (by norm_num)
  exact ⟨h.1, h2.1, h2.2⟩

/-- Helper: invalid latitude short-circuits `calculate_optimal_angles` with
the latitude error, regardless of the other arguments. -/
theorem calculate_optimal_angles_latitude_invalid (c : SolarCalculator)
    (eph : ℚ → ℚ → ℚ → Except String ℚ) (today : String)
    (lat lon : ℚ) (off : Option ℚ) (h : ¬(-90 ≤ lat ∧ lat ≤ 90)) :
    calculate_optimal_angles c eph today lat lon off
      = (Except.error "Latitude must be between -90 and 90 degrees", c) := by
  rw [calculate_optimal_angles, if_pos h]

/-- Helper: valid latitude but invalid longitude yields the longitude
error. -/
theorem calculate_optimal_angles_longitude_invalid (c : SolarCalculator)
    (eph : ℚ → ℚ → ℚ → Except String ℚ) (today : String)
    (lat lon : ℚ) (off : Option ℚ) (h1 : -90 ≤ lat ∧ lat ≤ 90)
    (h : ¬(-180 ≤ lon ∧ lon ≤ 180)) :
    calculate_optimal_angles c eph today lat lon off
      = (Except.error "Longitude must be between -180 and 180 degrees", c) := by
  rw [calculate_optimal_angles, if_neg (not_not_intro h1), if_pos h]

/-- Helper: valid latitude and longitude but out-of-range offset yields the
offset error. -/
theorem calculate_optimal_angles_offset_invalid (c : SolarCalculator)
    (eph : ℚ → ℚ → ℚ → Except String ℚ) (today : String)
    (lat lon : ℚ) (off : Option ℚ) (h1 : -90 ≤ lat ∧ lat ≤ 90)
    (h2 : -180 ≤ lon ∧ lon ≤ 180) (h : offset_in_range off = false) :
    calculate_optimal_angles c eph today lat lon off
      = (Except.error "Offset angle must be between -90 and 90 degrees", c) := by
  rw [calculate_optimal_angles, if_neg (not_not_intro h1),
    if_neg (not_not_intro h2), if_pos (by simp [h])]

/-- Helper: on fully valid inputs `calculate_optimal_angles` returns the
rounded result record built from the tilt, azimuth, radiation and output
stages, with the calculator state unchanged. -/
theorem calculate_optimal_angles_valid (c : SolarCalculator)
    (eph : ℚ → ℚ → ℚ → Except String ℚ) (today : String)
    (lat lon : ℚ) (off : Option ℚ) (h1 : -90 ≤ lat ∧ lat ≤ 90)
    (h2 : -180 ≤ lon ∧ lon ≤ 180) (h3 : offset_in_range off = true) :
    calculate_optimal_angles c eph today lat lon off
      = (Except.ok
          { optimal_pitch := round2 (calculate_optimal_tilt lat off)
            optimal_azimuth := round2 (calculate_optimal_azimuth lat)
            annual_solar_radiation := round2 (calculate_annual_radiation
              (eph lat lon (calculate_optimal_tilt lat off)) lat
              (calculate_optimal_tilt lat off))
            efficiency_factor := c.system_efficiency
            estimated_annual_output := round2 (calculate_annual_output c
              (calculate_annual_radiation
                (eph lat lon (calculate_optimal_tilt lat off)) lat
                (calculate_optimal_tilt lat off)))
            calculation_date := today }, c) := by
  rw [calculate_optimal_angles, if_neg (not_not_intro h1),
    if_neg (not_not_intro h2), if_neg (by simp [h3])]

/-- Claim C4: the radiation estimator never propagates an error: when the pvlib
primary path raises (outcome `Except.error`), the result is exactly the
fallback estimate, and when it succeeds the result is the primary value —
in both cases `calculate_annual_radiation` returns a plain number, so the
caller never sees a failure. -/
theorem annual_radiation_never_fails (primary : Except String ℚ)
    (lat tilt : ℚ) :
    (∀ msg, primary = Except.error msg →
      calculate_annual_radiation primary lat tilt
        = fallback_radiation_calculation lat tilt)
    ∧ (∀ r, primary = Except.ok r →
      calculate_annual_radiation primary lat tilt = r) := by
  constructor
  · intro msg h
    subst h
    rfl
  · intro r h
    subst h
    rfl

/-- Witness for claim C4: a forced primary-path failure at latitude 10, tilt 10 is
replaced by the fallback estimate. -/
theorem annual_radiation_never_fails_witness :
    calculate_annual_radiation (Except.error "pvlib failure") 10 10
      = fallback_radiation_calculation 10 10 :=
  (annual_radiation_never_fails (Except.error "pvlib failure") 10 10).1
    "pvlib failure" rfl

/-- Claim C3: `calculate_optimal_angles` fails with an error naming the offending
field — latitude checked first, then longitude, then offset — and produces
no result record, exactly when latitude is outside `[-90, 90]`, longitude
is outside `[-180, 180]`, or a supplied offset angle is outside
`[-90, 90]`; on fully valid inputs it returns a result record. -/
theorem validation_matches_spec (c : SolarCalculator)
    (eph : ℚ → ℚ → ℚ → Except String ℚ) (today : String)
    (lat lon : ℚ) (off : Option ℚ) :
    (¬(-90 ≤ lat ∧ lat ≤ 90) →
      (calculate_optimal_angles c eph today lat lon off).1
        = Except.error "Latitude must be between -90 and 90 degrees")
    ∧ ((-90 ≤ lat ∧ lat ≤ 90) → ¬(-180 ≤ lon ∧ lon ≤ 180) →
      (calculate_optimal_angles c eph today lat lon off).1
        = Except.error "Longitude must be between -180 and 180 degrees")
    ∧ ((-90 ≤ lat ∧ lat ≤ 90) → (-180 ≤ lon ∧ lon ≤ 180) →
        offset_in_range off = false →
      (calculate_optimal_angles c eph today lat lon off).1
        = Except.error "Offset angle must be between -90 and 90 degrees")
    ∧ ((∃ rec, (calculate_optimal_angles c eph today lat lon off).1
          = Except.ok rec) ↔
        ((-90 ≤ lat ∧ lat ≤ 90) ∧ (-180 ≤ lon ∧ lon ≤ 180) ∧
          offset_in_range off = true)) := by
  refine ⟨?_, ?_, ?_, ?_, ?_⟩
  · intro h
    rw [calculate_optimal_angles_latitude_invalid c eph today lat lon off h]
  · intro h1 h
    rw [calculate_optimal_angles_longitude_invalid c eph today lat lon off h1 h]
  · intro h1 h2 h
    rw [calculate_optimal_angles_offset_invalid c eph today lat lon off h1 h2 h]
  · rintro ⟨rec, hrec⟩
    by_cases h1 : -90 ≤ lat ∧ lat ≤ 90
    · by_cases h2 : -180 ≤ lon ∧ lon ≤ 180
      · by_cases h3 : offset_in_range off = true
        · exact ⟨h1, h2, h3⟩
        · rw [calculate_optimal_angles_offset_invalid c eph today lat lon off
            h1 h2 (Bool.eq_false_iff.mpr h3)] at hrec
          exact absurd hrec (by simp)
      · rw [calculate_optimal_angles_longitude_invalid c eph today lat lon off
          h1 h2] at hrec
        exact absurd hrec (by simp)
    · rw [calculate_optimal_angles_latitude_invalid c eph today lat lon off
        h1] at hrec
      exact absurd hrec (by simp)
  · rintro ⟨h1, h2, h3⟩
    exact ⟨_, by rw [calculate_optimal_angles_valid c eph today lat lon off
      h1 h2 h3]⟩

/-- Witness for claim C3: latitude 100 is rejected with the latitude error even
though longitude 200 is also invalid (latitude is checked first), and the
fully valid input (40, -74, no offset) yields a result record. -/
theorem validation_matches_spec_witness :
    (calculate_optimal_angles SolarCalculator.init
        (fun _ _ _ => Except.error "pvlib down") "2024-01-01" 100 200 none).1
      = Except.error "Latitude must be between -90 and 90 degrees"
    ∧ ∃ rec, (calculate_optimal_angles SolarCalculator.init
        (fun _ _ _ => Except.error "pvlib down") "2024-01-01" 40 (-74) none).1
      = Except.ok rec := by
  constructor
  · exact (validation_matches_spec SolarCalculator.init
      (fun _ _ _ => Except.error "pvlib down") "2024-01-01" 100 200 none).1
      (by norm_num)
  · exact (validation_matches_spec SolarCalculator.init
      (fun _ _ _ => Except.error "pvlib down") "2024-01-01" 40 (-74) none).2.2.2.mpr
      ⟨by norm_num, by norm_num, rfl⟩

/-- Claim C8: `calculate_optimal_angles` is deterministic and idempotent given a
deterministic ephemeris model: it never mutates the calculator state
(`self` is only read), and a second call run from the state left by the
first call produces exactly the same result record and state. -/
theorem compute_deterministic_and_stateless (c : SolarCalculator)
    (eph : ℚ → ℚ → ℚ → Except String ℚ) (today : String)
    (lat lon : ℚ) (off : Option ℚ) :
    (calculate_optimal_angles c eph today lat lon off).2 = c
    ∧ calculate_optimal_angles
        (calculate_optimal_angles c eph today lat lon off).2
        eph today lat lon off
      = calculate_optimal_angles c eph today lat lon off := by
  have hstate : (calculate_optimal_angles c eph today lat lon off).2 = c := by
    rw [calculate_optimal_angles]
    split
    · rfl
    · split
      · rfl
      · split
        · rfl
        · rfl
  exact ⟨hstate, by rw [hstate]⟩

/-- Helper: the clamped tilt is non-negative. -/
theorem calculate_optimal_tilt_nonneg (lat : ℚ) (off : Option ℚ) :
    0 ≤ calculate_optimal_tilt lat off := by
  rw [calculate_optimal_tilt.eq_def]
  exact le_max_left _ _

/-- Helper: the clamped tilt is at most 90. -/
theorem calculate_optimal_tilt_le (lat : ℚ) (off : Option ℚ) :
    calculate_optimal_tilt lat off ≤ 90 := by
  rw [calculate_optimal_tilt.eq_def]
  exact max_le (by norm_num) (min_le_left _ _)

/-- Helper: the fallback radiation is non-negative whenever the tilt lies
in `[0, 90]` and the latitude in `[-90, 90]`. -/
theorem fallback_radiation_nonneg (lat tilt : ℚ) (ht0 : 0 ≤ tilt)
    (ht90 : tilt ≤ 90) (hl1 : -90 ≤ lat) (hl2 : lat ≤ 90) :
    0 ≤ fallback_radiation_calculation lat tilt := by
  rw [fallback_radiation_calculation]
  have hlat : |lat| ≤ 90 := abs_le.mpr ⟨hl1, hl2⟩
  have hlat0 : 0 ≤ |lat| := abs_nonneg lat
  have hd : |tilt - abs lat| ≤ 90 := by
    rw [abs_le]
    constructor <;> linarith
  have hdiv1 : |tilt - abs lat| / 90 ≤ 1 := by
    rw [div_le_one (by norm_num : (0:ℚ) < 90)]
    exact hd
  have hfac : 0 ≤ 1.0 + 0.1 * (1 - |tilt - abs lat| / 90) := by linarith
  have hbase : (0:ℚ) ≤
      (if |lat| < 23.5 then (5.5:ℚ)
       else if |lat| < 45 then 4.5
       else if |lat| < 60 then 3.5 else 2.5) := by
    split
    · norm_num
    · split
      · norm_num
      · split
        · norm_num
        · norm_num
  exact mul_nonneg hbase hfac

/-- Helper: `round2` maps non-negative rationals to non-negative
rationals. -/
theorem round2_nonneg (x : ℚ) (hx : 0 ≤ x) : 0 ≤ round2 x := by
  rw [round2]
  have h1 : (0:ℤ) ≤ round (x * 100) := by
    rw [round_eq]
    exact Int.floor_nonneg.mpr (by linarith)
  have h2 : (0:ℚ) ≤ (round (x * 100) : ℚ) := Int.cast_nonneg.mpr h1
  positivity

/-- Claim C7: for every valid latitude, longitude and optional offset, the
result record's annual radiation and annual output are non-negative —
whether the primary ephemeris path succeeds (its value is non-negative
since the clear-sky GHI samples are) or fails and is replaced by the
fallback — and the primary-path value itself is non-negative whenever the
GHI samples are. -/
theorem radiation_and_output_nonneg :
    (∀ (eph : ℚ → ℚ → ℚ → Except String ℚ) (today : String)
        (lat lon : ℚ) (off : Option ℚ),
      -90 ≤ lat ∧ lat ≤ 90 → -180 ≤ lon ∧ lon ≤ 180 →
      offset_in_range off = true →
      (∀ la lo ti r, eph la lo ti = Except.ok r → 0 ≤ r) →
      ∃ rec, (calculate_optimal_angles SolarCalculator.init eph today
          lat lon off).1 = Except.ok rec
        ∧ 0 ≤ rec.annual_solar_radiation
        ∧ 0 ≤ rec.estimated_annual_output)
    ∧ (∀ (ghi zenith : ℕ → ℝ) (tilt : ℝ), (∀ i, 0 ≤ ghi i) →
        0 ≤ primary_annual_radiation ghi zenith tilt) := by
  constructor
  · intro eph today lat lon off h1 h2 h3 heph
    rw [calculate_optimal_angles_valid SolarCalculator.init eph today
      lat lon off h1 h2 h3]
    have hrad : 0 ≤ calculate_annual_radiation
        (eph lat lon (calculate_optimal_tilt lat off)) lat
        (calculate_optimal_tilt lat off) := by
      cases hcase : eph lat lon (calculate_optimal_tilt lat off) with
      | ok r =>
        exact heph lat lon (calculate_optimal_tilt lat off) r hcase
      | error msg =>
        exact fallback_radiation_nonneg lat (calculate_optimal_tilt lat off)
          (calculate_optimal_tilt_nonneg lat off)
          (calculate_optimal_tilt_le lat off) h1.1 h1.2
    refine ⟨_, rfl, round2_nonneg _ hrad, round2_nonneg _ ?_⟩
    have houtput : calculate_annual_output SolarCalculator.init
        (calculate_annual_radiation
          (eph lat lon (calculate_optimal_tilt lat off)) lat
          (calculate_optimal_tilt lat off))
      = calculate_annual_radiation
          (eph lat lon (calculate_optimal_tilt lat off)) lat
          (calculate_optimal_tilt lat off) * 365 * 1.0 * 0.75 := rfl
    rw [houtput]
    exact mul_nonneg (mul_nonneg (mul_nonneg hrad (by norm_num))
      (by norm_num)) (by norm_num)
  · intro ghi zenith tilt hghi
    rw [primary_annual_radiation]
    have hsum : 0 ≤ ∑ i ∈ Finset.range (days_in_year 2024),
        calculate_tilted_radiation (ghi i) (zenith i) tilt := by
      apply Finset.sum_nonneg
      intro i _
      rw [calculate_tilted_radiation]
      exact mul_nonneg (hghi i) (le_min zero_le_one (le_max_left 0 _))
    have hden : (0:ℝ) ≤ (days_in_year 2024 : ℝ) := Nat.cast_nonneg _
    have h365 : (0:ℝ) ≤ 365 := by norm_num
    have h1000 : (0:ℝ) ≤ 1000 := by norm_num
    exact div_nonneg (mul_nonneg (div_nonneg hsum hden) h365) h1000

/-- Witness for claim C7: with the ephemeris path forced to fail, the computation at
latitude 50, longitude 0 still returns a record with non-negative
radiation and output. -/
theorem radiation_and_output_nonneg_witness :
    ∃ rec, (calculate_optimal_angles SolarCalculator.init
        (fun _ _ _ => Except.error "forced failure") "2024-01-01"
        50 0 none).1 = Except.ok rec
      ∧ 0 ≤ rec.annual_solar_radiation
      ∧ 0 ≤ rec.estimated_annual_output :=
  radiation_and_output_nonneg.1 (fun _ _ _ => Except.error "forced failure")
    "2024-01-01" 50 0 none (by norm_num) (by norm_num) rfl
    (fun la lo ti r h => nomatch h)

/-- Claim C10: longitude never influences tilt or azimuth — the two estimators
do not even take a longitude argument — so for one latitude and offset and
two valid longitudes the result records agree on `optimal_pitch` and
`optimal_azimuth`; and whenever the radiation fallback is taken for both
longitudes, the records agree on `annual_solar_radiation` as well. -/
theorem longitude_noninterference (c : SolarCalculator)
    (eph : ℚ → ℚ → ℚ → Except String ℚ) (today : String)
    (lat : ℚ) (off : Option ℚ) (lon1 lon2 : ℚ)
    (hlat : -90 ≤ lat ∧ lat ≤ 90)
    (hlon1 : -180 ≤ lon1 ∧ lon1 ≤ 180)
    (hlon2 : -180 ≤ lon2 ∧ lon2 ≤ 180)
    (hoff : offset_in_range off = true) :
    ∃ r1 r2,
      (calculate_optimal_angles c eph today lat lon1 off).1 = Except.ok r1
      ∧ (calculate_optimal_angles c eph today lat lon2 off).1 = Except.ok r2
      ∧ r1.optimal_pitch = r2.optimal_pitch
      ∧ r1.optimal_azimuth = r2.optimal_azimuth
      ∧ (∀ m1 m2,
          eph lat lon1 (calculate_optimal_tilt lat off) = Except.error m1 →
          eph lat lon2 (calculate_optimal_tilt lat off) = Except.error m2 →
          r1.annual_solar_radiation = r2.annual_solar_radiation) := by
  rw [calculate_optimal_angles_valid c eph today lat lon1 off hlat hlon1 hoff,
    calculate_optimal_angles_valid c eph today lat lon2 off hlat hlon2 hoff]
  refine ⟨_, _, rfl, rfl, rfl, rfl, ?_⟩
  intro m1 m2 hm1 hm2
  simp only [calculate_annual_radiation, hm1, hm2]

/-- A concrete always-failing ephemeris model, used by witnesses that
exercise the fallback path. -/
def ephemeris_down : ℚ → ℚ → ℚ → Except String ℚ :=
  fun _ _ _ => Except.error "pvlib down"

/-- Witness for claim C10: latitude 30 at longitudes 0 and 100 with a failing
ephemeris model gives records agreeing on pitch, azimuth — and radiation,
since both take the fallback. -/
theorem longitude_noninterference_witness :
    ∃ r1 r2,
      (calculate_optimal_angles SolarCalculator.init ephemeris_down
          "2024-01-01" 30 0 none).1 = Except.ok r1
      ∧ (calculate_optimal_angles SolarCalculator.init ephemeris_down
          "2024-01-01" 30 100 none).1 = Except.ok r2
      ∧ r1.optimal_pitch = r2.optimal_pitch
      ∧ r1.optimal_azimuth = r2.optimal_azimuth
      ∧ (∀ m1 m2,
          ephemeris_down 30 0 (calculate_optimal_tilt 30 none)
              = Except.error m1 →
          ephemeris_down 30 100 (calculate_optimal_tilt 30 none)
              = Except.error m2 →
          r1.annual_solar_radiation = r2.annual_solar_radiation) :=
  longitude_noninterference SolarCalculator.init ephemeris_down
    "2024-01-01" 30 none 0 100
    (by norm_num) (by norm_num) (by norm_num) rfl

/-- Helper: 2024 is a leap year, so the sampled date range
`pd.date_range(datetime(2024, 1, 1), datetime(2024, 12, 31), freq=D)` has
366 daily points, not 365. -/
theorem days_in_year_2024 : days_in_year 2024 = 366 := by decide

/-- Helper: with tilt 0 and zenith 0 the tilted irradiance reduces to the
GHI itself (the incidence cosine is 1 and survives the clip). -/
theorem tilted_radiation_at_zero (g : ℝ) :
    calculate_tilted_radiation g 0 0 = g := by
  rw [calculate_tilted_radiation]
  simp

/-- Claim C1 counterexample: the code's primary radiation path does not
equal the spec's 365-point reference definition.  With a GHI stream that
is 1 on the 366th sampled day and 0 elsewhere, zenith 0 and tilt 0, the
code (sampling all 366 days of the leap year 2024) returns `365/366000`
while the reference (sampling 365 days of a non-leap year) returns 0. -/
theorem primary_vs_spec_annual_radiation_counterexample :
    primary_annual_radiation (fun i => if i = 365 then 1 else 0)
        (fun _ => 0) 0
      ≠ spec_annual_radiation (fun i => if i = 365 then 1 else 0)
        (fun _ => 0) 0 := by
  have hterm : ∀ i : ℕ, calculate_tilted_radiation
      (if i = 365 then (1:ℝ) else 0) 0 0 = if i = 365 then 1 else 0 :=
    fun i => tilted_radiation_at_zero _
  have hsum1 : (∑ i ∈ Finset.range 366,
      calculate_tilted_radiation (if i = 365 then (1:ℝ) else 0) 0 0) = 1 := by
    simp only [hterm]
    rw [Finset.sum_ite_eq' (Finset.range 366) 365 (fun _ => (1:ℝ))]
    simp
  have hsum2 : (∑ i ∈ Finset.range 365,
      calculate_tilted_radiation (if i = 365 then (1:ℝ) else 0) 0 0) = 0 := by
    simp only [hterm]
    rw [Finset.sum_ite_eq' (Finset.range 365) 365 (fun _ => (1:ℝ))]
    simp
  rw [primary_annual_radiation, spec_annual_radiation, days_in_year_2024]
  simp only [hsum1, hsum2]
  norm_num

/-- Claim C1, amended: the primary radiation path samples every calendar
day of the (leap) year 2024 — 366 daily points, January 1 through
December 31 — computes each day's tilted irradiance as
`ghi * clip(cos(zenith)*cos(tilt) + sin(zenith)*sin(tilt), 0, 1)`, and
returns the mean of the 366 daily values multiplied by 365 and divided by
1000. -/
theorem primary_annual_radiation_matches_amended :
    days_in_year 2024 = 366
    ∧ ∀ (ghi zenith : ℕ → ℝ) (tilt : ℝ),
      primary_annual_radiation ghi zenith tilt
        = amended_annual_radiation ghi zenith tilt := by
  refine ⟨days_in_year_2024, ?_⟩
  intro ghi zenith tilt
  rw [primary_annual_radiation, amended_annual_radiation, days_in_year_2024]
  norm_num
